import Mathlib

/-!
# s3verify: error-response decoding, remove-bucket verification, ranged GET

A shallow embedding of `error-response.go`, `remove-bucket.go` and
`get-object-range.go`.

Conventions of the embedding:

* Go strings are `String`, `[]byte` is `List UInt8`, `int`/`int64` are `Int`
  (with an explicit 64-bit wrap wherever the source does arithmetic).
* A Go `error` result is an `Option`: `none` is `nil`.
* The response body is an `io.Reader`, i.e. a piece of state.  Its type is a
  parameter `ρ`; every function that may read the body returns the body state
  it leaves behind.
* Collaborators that live outside the embedded files (`xmlDecoder`,
  `verifyStandardHeaders`, `computeHash`, `appUserAgent`) are parameters of the
  functions that call them.
-/

namespace S3Verify

/-! ## net/http headers -/

/-- Bytes accepted in a header field name (`validHeaderFieldByte` of
`net/textproto`): ASCII letters, digits and the fifteen token punctuation
characters, the latter given by code point. -/
def validHeaderFieldByte (c : Char) : Bool :=
  c.isAlphanum ||
    [33, 35, 36, 37, 38, 39, 42, 43, 45, 46, 94, 95, 96, 124, 126].contains c.toNat

/-- The canonicalisation loop of `net/textproto`: upper case for the first
letter and for every letter after a dash, lower case elsewhere. -/
def canonicalLoop : Bool → List Char → List Char
  | _, [] => []
  | upper, c :: cs =>
    let c1 := if upper && c.isLower then c.toUpper
              else if !upper && c.isUpper then c.toLower
              else c
    c1 :: canonicalLoop (c1 == '-') cs

/-- The function `textproto.CanonicalMIMEHeaderKey`: a key holding a byte that is
not a header field byte is returned unchanged, any other key is canonicalised. -/
def canonicalMIMEHeaderKey (s : String) : String :=
  if s.data.all validHeaderFieldByte then String.mk (canonicalLoop true s.data) else s

/-- The type `http.Header`, a `map[string][]string`, as an association list. -/
abbrev Header := List (String × List String)

/-- Map lookup `h[key]`. -/
def Header.lookup (h : Header) (key : String) : Option (List String) :=
  List.lookup key h

/-- The method `Header.Get`: first value stored under the canonical form of the
key, or the empty string when there is none. -/
def Header.Get (h : Header) (key : String) : String :=
  match Header.lookup h (canonicalMIMEHeaderKey key) with
  | some (v :: _) => v
  | _ => ""

/-- The method `Header.Set`: replaces whatever is stored under the canonical form
of the key by the single value. -/
def Header.Set (h : Header) (key value : String) : Header :=
  (canonicalMIMEHeaderKey key, [value]) ::
    h.filter (fun kv => kv.1 != canonicalMIMEHeaderKey key)

/-! ## error-response.go -/

/-- The struct `ErrorResponse` (the `XMLName` field only names the root element). -/
structure ErrorResponse where
  Code : String := ""
  Message : String := ""
  BucketName : String := ""
  Key : String := ""
  RequestID : String := ""
  HostID : String := ""
  Region : String := ""
  deriving DecidableEq, Repr, Inhabited

/-- The method `ErrorResponse.Error`. -/
def ErrorResponse.Error (e : ErrorResponse) : String := e.Message

/-- The fields of `http.Response` that the embedded code reads. -/
structure Response (ρ : Type) where
  Status : String
  StatusCode : Int
  Header : Header
  Body : ρ

/-- Values of the Go interface `error` that reach the embedded code: an error
built by `fmt.Errorf`, identified by its text, or an error `ext e` handed back
by a collaborator outside the embedded files. -/
inductive GoError (ε : Type) where
  | errorf (msg : String)
  | ext (e : ε)
  deriving DecidableEq, Repr

/-- What a call `xmlDecoder(body, &v)` leaves behind: the returned error, the
value now stored in `v`, and the state of the body reader. -/
structure Decoded (ε ρ : Type) where
  err : Option (GoError ε)
  v : ErrorResponse
  body : ρ

/-- The signature of `xmlDecoder(body io.Reader, v interface{}) error`, used at
`*ErrorResponse`: it takes the reader and the current value of `v`. -/
abbrev XmlDecoder (ε ρ : Type) := ρ → ErrorResponse → Decoded ε ρ

def reportIssue : String :=
  "Please report this issue at https://github.com/minio/s3verify/issues."

/-- The function `ErrInvalidArgument`. -/
def ErrInvalidArgument (message : String) : ErrorResponse :=
  { Code := "InvalidArgument", Message := message, RequestID := "minio" }

/-- The function `ErrInvalidBucketName`. -/
def ErrInvalidBucketName (message : String) : ErrorResponse :=
  { Code := "InvalidBucketName", Message := message, RequestID := "minio" }

/-- The function `ErrInvalidObjectName`. -/
def ErrInvalidObjectName (message : String) : ErrorResponse :=
  { Code := "NoSuchKey", Message := message, RequestID := "minio" }

def StatusNotFound : Int := 404
def StatusForbidden : Int := 403
def StatusConflict : Int := 409
def StatusPartialContent : Int := 206

/-- The `switch resp.StatusCode` of `httpRespToErrorResponse`, entered when XML
decoding returned an error. -/
def statusFallback {ρ : Type} (resp : Response ρ) (bucketName objectName : String) :
    ErrorResponse :=
  if resp.StatusCode = StatusNotFound then
    if objectName = "" then
      { Code := "NoSuchBucket"
        Message := "The specified bucket does not exist."
        BucketName := bucketName
        RequestID := resp.Header.Get "x-amz-request-id"
        HostID := resp.Header.Get "x-amz-id-2"
        Region := resp.Header.Get "x-amz-bucket-region" }
    else
      { Code := "NoSuchKey"
        Message := "The specified key does not exist."
        BucketName := bucketName
        Key := objectName
        RequestID := resp.Header.Get "x-amz-request-id"
        HostID := resp.Header.Get "x-amz-id-2"
        Region := resp.Header.Get "x-amz-bucket-region" }
  else if resp.StatusCode = StatusForbidden then
    { Code := "AccessDenied"
      Message := "Access Denied."
      BucketName := bucketName
      Key := objectName
      RequestID := resp.Header.Get "x-amz-request-id"
      HostID := resp.Header.Get "x-amz-id-2"
      Region := resp.Header.Get "x-amz-bucket-region" }
  else if resp.StatusCode = StatusConflict then
    { Code := "Conflict"
      Message := "Bucket not empty."
      BucketName := bucketName
      RequestID := resp.Header.Get "x-amz-request-id"
      HostID := resp.Header.Get "x-amz-id-2"
      Region := resp.Header.Get "x-amz-bucket-region" }
  else
    { Code := resp.Status
      Message := resp.Status
      BucketName := bucketName
      RequestID := resp.Header.Get "x-amz-request-id"
      HostID := resp.Header.Get "x-amz-id-2"
      Region := resp.Header.Get "x-amz-bucket-region" }

/-- The function `httpRespToErrorResponse`.  A nil `resp` is `none`.  The Go
function returns the record as an `error`; the embedding returns the record
together with the body reader it leaves behind (`none` when there is no
response). -/
def httpRespToErrorResponse {ε ρ : Type} (xmlDecoder : XmlDecoder ε ρ)
    (resp : Option (Response ρ)) (bucketName objectName : String) :
    ErrorResponse × Option ρ :=
  match resp with
  | none => (ErrInvalidArgument ("Response is empty. " ++ reportIssue), none)
  | some resp =>
    let d := xmlDecoder resp.Body {}
    match d.err with
    | some _ => (statusFallback resp bucketName objectName, some d.body)
    | none => (d.v, some d.body)

/-! ## Request construction -/

/-- Modelled from the spec: the declaration of the struct `Request` is not in the
embedded files.  The spec's request descriptor has a target bucket name, an
optional object key and a mapping of custom header names to values; these are
the three fields the builders assign. -/
structure Request where
  bucketName : String := ""
  objectName : String := ""
  customHeader : Header := []

/-- What the builders keep of `computeHash(reader)`: the SHA-256 sum and the
error (the first and third results are discarded by both builders). -/
structure HashResult (ε : Type) where
  sha256Sum : List UInt8
  err : Option (GoError ε)

def hexDigit (n : Nat) : Char := "0123456789abcdef".data.getD n '0'

/-- The function `hex.EncodeToString`: two lower-case hexadecimal digits a byte. -/
def hexEncodeToString : List UInt8 → String
  | [] => ""
  | b :: bs =>
    String.mk (hexDigit (b.toNat / 16) :: hexDigit (b.toNat % 16) :: (hexEncodeToString bs).data)

/-- The call `strconv.FormatInt(i, 10)`: decimal digits, with a leading minus
sign for a negative number. -/
def formatInt10 (i : Int) : String := toString i

/-- The function `newRemoveBucketReq`.  The hash is computed over the empty body. -/
def newRemoveBucketReq {ε : Type} (computeHash : List UInt8 → HashResult ε)
    (appUserAgent : String) (bucketName : String) : Request × Option (GoError ε) :=
  let removeBucketReq : Request := { customHeader := [] }
  let removeBucketReq := { removeBucketReq with bucketName := bucketName }
  let h := computeHash []
  match h.err with
  | some err => ({}, some err)
  | none =>
    let hdr := removeBucketReq.customHeader.Set "User-Agent" appUserAgent
    let hdr := hdr.Set "X-Amz-Content-Sha256" (hexEncodeToString h.sha256Sum)
    ({ removeBucketReq with customHeader := hdr }, none)

/-- The function `newGetObjectRangeReq`.  The hash is computed over the empty
body. -/
def newGetObjectRangeReq {ε : Type} (computeHash : List UInt8 → HashResult ε)
    (appUserAgent : String) (bucketName objectName : String) (startRange endRange : Int) :
    Request × Option (GoError ε) :=
  let getObjectRangeReq : Request := { customHeader := [] }
  let getObjectRangeReq :=
    { getObjectRangeReq with bucketName := bucketName, objectName := objectName }
  let h := computeHash []
  match h.err with
  | some err => ({}, some err)
  | none =>
    let hdr := getObjectRangeReq.customHeader.Set "Range"
      ("bytes=" ++ formatInt10 startRange ++ "-" ++ formatInt10 endRange)
    let hdr := hdr.Set "User-Agent" appUserAgent
    let hdr := hdr.Set "X-Amz-Content-Sha256" (hexEncodeToString h.sha256Sum)
    ({ getObjectRangeReq with customHeader := hdr }, none)

/-! ## remove-bucket.go: the verifier -/

/-- The function `verifyHeaderRemoveBucket`; `verifyStandardHeaders` is a
collaborator outside the embedded files. -/
def verifyHeaderRemoveBucket {ε : Type} (verifyStandardHeaders : Header → Option (GoError ε))
    (header : Header) : Option (GoError ε) :=
  match verifyStandardHeaders header with
  | some err => some err
  | none => none

/-- The function `verifyBodyRemoveBucket`; returns the error and the body reader
as it is left. -/
def verifyBodyRemoveBucket {ε ρ : Type} (xmlDecoder : XmlDecoder ε ρ) (resBody : ρ)
    (expectedError : ErrorResponse) : Option (GoError ε) × ρ :=
  if expectedError.Message ≠ "" then
    let d := xmlDecoder resBody {}
    match d.err with
    | some err => (some err, d.body)
    | none =>
      if d.v.Message ≠ expectedError.Message then
        (some (GoError.errorf ("Unexpected Error: " ++ d.v.Message)), d.body)
      else
        (none, d.body)
  else
    (none, resBody)

/-- The function `verifyStatusRemoveBucket`. -/
def verifyStatusRemoveBucket {ε : Type} (respStatusCode expectedStatusCode : Int) :
    Option (GoError ε) :=
  if respStatusCode ≠ expectedStatusCode then
    some (GoError.errorf ("Unexpected Status: wanted " ++ toString expectedStatusCode ++
      ", got " ++ toString respStatusCode))
  else
    none

/-- The function `removeBucketVerify`; returns the error and the body reader as
it is left. -/
def removeBucketVerify {ε ρ : Type} (verifyStandardHeaders : Header → Option (GoError ε))
    (xmlDecoder : XmlDecoder ε ρ) (res : Response ρ) (expectedStatusCode : Int)
    (errorResponse : ErrorResponse) : Option (GoError ε) × ρ :=
  match verifyHeaderRemoveBucket verifyStandardHeaders res.Header with
  | some err => (some err, res.Body)
  | none =>
    match verifyStatusRemoveBucket res.StatusCode expectedStatusCode with
    | some err => (some err, res.Body)
    | none => verifyBodyRemoveBucket xmlDecoder res.Body errorResponse

/-- The signature of `config.execRequest(method, req)`: a transport error or the
response. -/
abbrev ExecRequest (ε ρ : Type) := String → Request → Except (GoError ε) (Response ρ)

/-- The function `testRemoveBucketExists` (progress output dropped): every bucket
is removed in turn and verified against status 204 and the zero
`ErrorResponse`; the first failure ends the test. -/
def testRemoveBucketExists {ε ρ : Type} (computeHash : List UInt8 → HashResult ε)
    (appUserAgent : String) (execRequest : ExecRequest ε ρ)
    (verifyStandardHeaders : Header → Option (GoError ε)) (xmlDecoder : XmlDecoder ε ρ) :
    List String → Bool
  | [] => true
  | bucket :: rest =>
    match newRemoveBucketReq computeHash appUserAgent bucket with
    | (_, some _) => false
    | (req, none) =>
      match execRequest "DELETE" req with
      | .error _ => false
      | .ok res =>
        match (removeBucketVerify verifyStandardHeaders xmlDecoder res 204 {}).1 with
        | some _ => false
        | none =>
          testRemoveBucketExists computeHash appUserAgent execRequest verifyStandardHeaders
            xmlDecoder rest

/-- The hard-coded expected error response of `mainRemoveBucketDNE`, for the
bucket name the test drew. -/
def dneErrResponse (bucketName : String) : ErrorResponse :=
  { Code := "NoSuchBucket"
    Message := "The specified bucket does not exist"
    BucketName := bucketName
    Key := "" }

/-- The function `mainRemoveBucketDNE` (progress output dropped); the random
bucket name is an argument. -/
def mainRemoveBucketDNE {ε ρ : Type} (computeHash : List UInt8 → HashResult ε)
    (appUserAgent : String) (execRequest : ExecRequest ε ρ)
    (verifyStandardHeaders : Header → Option (GoError ε)) (xmlDecoder : XmlDecoder ε ρ)
    (bucketName : String) : Bool :=
  let errResponse := dneErrResponse bucketName
  match newRemoveBucketReq computeHash appUserAgent bucketName with
  | (_, some _) => false
  | (req, none) =>
    match execRequest "DELETE" req with
    | .error _ => false
    | .ok res =>
      match (removeBucketVerify verifyStandardHeaders xmlDecoder res StatusNotFound
        errResponse).1 with
      | some _ => false
      | none => true

/-! ## get-object-range.go: range selection -/

/-- Two's-complement wrap of an `int64` result. -/
def wrapInt64 (x : Int) : Int := (x + 2 ^ 63) % 2 ^ 64 - 2 ^ 63

/-- The call `rand.Int63n(n)`: panics (`none`) when `n <= 0`, otherwise returns
the value `draw` the source produces for that bound. -/
def Int63n (n : Int) (draw : Int) : Option Int :=
  if n ≤ 0 then none else some draw

/-- Lines 62-63 of `testGetObjectRange`: `startRange` and `endRange` for an
object of the given size, from the two values the random source produces. -/
def rangeDraw (size : Int) (r1 r2 : Int) : Option (Int × Int) :=
  match Int63n size r1 with
  | none => none
  | some startRange =>
    match Int63n (wrapInt64 (size - startRange)) r2 with
    | none => none
    | some r => some (startRange, wrapInt64 (r + startRange))

/-- A Go slice expression `s[lo:hi]` on a slice whose capacity is its length:
panics (`none`) unless `0 <= lo <= hi <= len(s)`. -/
def sliceExpr (s : List UInt8) (lo hi : Int) : Option (List UInt8) :=
  if 0 ≤ lo ∧ lo ≤ hi ∧ hi ≤ (s.length : Int) then
    some ((s.drop lo.toNat).take (hi.toNat - lo.toNat))
  else
    none

/-- Line 77 of `testGetObjectRange`: `object.Body[startRange : endRange+1]`. -/
def bufRange (body : List UInt8) (startRange endRange : Int) : Option (List UInt8) :=
  sliceExpr body startRange (wrapInt64 (endRange + 1))

/-! ## Sample collaborators

Concrete instances of the collaborators, used to evaluate the functions above on
actual inputs.  The body reader is the text still to be read. -/

/-- A decoder given by a table of the bodies it can decode: a body in the table
is consumed and its record stored; any other body (the empty one included) ends
in the error `EOF`, leaving `v` as it was. -/
def tableDecoder (table : List (String × ErrorResponse)) : XmlDecoder String String :=
  fun body v =>
    match table.lookup body with
    | some r => { err := none, v := r, body := "" }
    | none => { err := some (GoError.ext "EOF"), v := v, body := "" }

/-- An XML error body, and the record it decodes to. -/
def sampleErrorBody : String :=
  "<Error><Code>AccessDenied</Code><Message>Access Denied</Message></Error>"

def sampleErrorRecord : ErrorResponse :=
  { Code := "AccessDenied", Message := "Access Denied" }

/-- An XML error body carrying the NoSuchBucket Message with its final full stop,
and the record it decodes to. -/
def noSuchBucketBody : String :=
  "<Error><Code>NoSuchBucket</Code>" ++
  "<Message>The specified bucket does not exist.</Message></Error>"

def noSuchBucketRecord : ErrorResponse :=
  { Code := "NoSuchBucket", Message := "The specified bucket does not exist." }

/-- An XML error body carrying the NoSuchBucket Message as the missing-bucket
test expects it, without a final full stop, and the record it decodes to. -/
def expectedMessageBody : String :=
  "<Error><Code>NoSuchBucket</Code>" ++
  "<Message>The specified bucket does not exist</Message></Error>"

def expectedMessageRecord : ErrorResponse :=
  { Code := "NoSuchBucket", Message := "The specified bucket does not exist" }

/-- An XML error body with the Message the missing-bucket test expects under
another Code, and the record it decodes to. -/
def otherCodeBody : String :=
  "<Error><Code>AccessDenied</Code>" ++
  "<Message>The specified bucket does not exist</Message></Error>"

def otherCodeRecord : ErrorResponse :=
  { Code := "AccessDenied", Message := "The specified bucket does not exist" }

/-- A header check that accepts exactly the header sets carrying `X-Amz-Request-Id`. -/
def requestIdHeaderCheck : Header → Option (GoError String) :=
  fun h =>
    match Header.lookup h "X-Amz-Request-Id" with
    | some _ => none
    | none => some (GoError.errorf "Unexpected Header: X-Amz-Request-Id missing")

/-- A `computeHash` that succeeds with a fixed four-byte sum. -/
def sampleHash : List UInt8 → HashResult String :=
  fun _ => { sha256Sum := [227, 176, 196, 66], err := none }

/-! ## Theorems: the status-code fallback of `httpRespToErrorResponse` -/

/-- C1: when the body of a non-nil response fails XML decoding, the returned
record has Code "NoSuchBucket" and Message "The specified bucket does not
exist." for status 404 with an empty object name, Code "NoSuchKey" and Message
"The specified key does not exist." for status 404 with a non-empty object
name, and Code "Conflict" and Message "Bucket not empty." for status 409. -/
theorem fallback_code_message_404_409 {ε ρ : Type} (xmlDecoder : XmlDecoder ε ρ)
    (resp : Response ρ) (bucketName objectName : String)
    (hfail : (xmlDecoder resp.Body {}).err ≠ none) :
    (resp.StatusCode = 404 → objectName = "" →
      (httpRespToErrorResponse xmlDecoder (some resp) bucketName objectName).1.Code
          = "NoSuchBucket" ∧
      (httpRespToErrorResponse xmlDecoder (some resp) bucketName objectName).1.Message
          = "The specified bucket does not exist.") ∧
    (resp.StatusCode = 404 → objectName ≠ "" →
      (httpRespToErrorResponse xmlDecoder (some resp) bucketName objectName).1.Code
          = "NoSuchKey" ∧
      (httpRespToErrorResponse xmlDecoder (some resp) bucketName objectName).1.Message
          = "The specified key does not exist.") ∧
    (resp.StatusCode = 409 →
      (httpRespToErrorResponse xmlDecoder (some resp) bucketName objectName).1.Code
          = "Conflict" ∧
      (httpRespToErrorResponse xmlDecoder (some resp) bucketName objectName).1.Message
          = "Bucket not empty.") := by
  have hres : (httpRespToErrorResponse xmlDecoder (some resp) bucketName objectName).1
      = statusFallback resp bucketName objectName := by
    unfold httpRespToErrorResponse
    cases herr : (xmlDecoder resp.Body {}).err with
    | none => exact absurd herr hfail
    | some e => simp [herr]
  rw [hres]
  refine ⟨?_, ?_, ?_⟩
  · intro hs ho
    simp [statusFallback, StatusNotFound, hs, ho]
  · intro hs ho
    simp [statusFallback, StatusNotFound, hs, ho]
  · intro hs
    simp [statusFallback, StatusNotFound, StatusForbidden, StatusConflict, hs]

/-- Witness for C1: a 404 response with an empty body, no object name. -/
theorem fallback_code_message_404_409_witness :
    (tableDecoder [] "" {}).err ≠ none ∧
    (httpRespToErrorResponse (tableDecoder [])
        (some { Status := "404 Not Found", StatusCode := 404, Header := [], Body := "" })
        "bucket" "").1.Code = "NoSuchBucket" ∧
    (httpRespToErrorResponse (tableDecoder [])
        (some { Status := "404 Not Found", StatusCode := 404, Header := [], Body := "" })
        "bucket" "").1.Message = "The specified bucket does not exist." :=
  ⟨by decide,
   (fallback_code_message_404_409 (tableDecoder [])
      { Status := "404 Not Found", StatusCode := 404, Header := [], Body := "" }
      "bucket" "" (by decide)).1 rfl rfl⟩

/-- C2: for a non-nil response with status 403 whose body fails XML decoding, and
for every header set, the returned record has Code "AccessDenied", Message
"Access Denied.", and RequestID, HostID and Region read from the headers
x-amz-request-id, x-amz-id-2 and x-amz-bucket-region: the first value stored
under the header when there is one, the empty string when the header is
absent.  The function is total, so no failure is raised. -/
theorem fallback_403_access_denied {ε ρ : Type} (xmlDecoder : XmlDecoder ε ρ)
    (resp : Response ρ) (bucketName objectName : String)
    (hfail : (xmlDecoder resp.Body {}).err ≠ none) (hs : resp.StatusCode = 403) :
    (httpRespToErrorResponse xmlDecoder (some resp) bucketName objectName).1 =
      { Code := "AccessDenied"
        Message := "Access Denied."
        BucketName := bucketName
        Key := objectName
        RequestID := resp.Header.Get "x-amz-request-id"
        HostID := resp.Header.Get "x-amz-id-2"
        Region := resp.Header.Get "x-amz-bucket-region" } ∧
    (∀ v vs, resp.Header.lookup "X-Amz-Request-Id" = some (v :: vs) →
      resp.Header.Get "x-amz-request-id" = v) ∧
    (∀ v vs, resp.Header.lookup "X-Amz-Id-2" = some (v :: vs) →
      resp.Header.Get "x-amz-id-2" = v) ∧
    (∀ v vs, resp.Header.lookup "X-Amz-Bucket-Region" = some (v :: vs) →
      resp.Header.Get "x-amz-bucket-region" = v) ∧
    (resp.Header.lookup "X-Amz-Request-Id" = none →
      resp.Header.Get "x-amz-request-id" = "") ∧
    (resp.Header.lookup "X-Amz-Id-2" = none → resp.Header.Get "x-amz-id-2" = "") ∧
    (resp.Header.lookup "X-Amz-Bucket-Region" = none →
      resp.Header.Get "x-amz-bucket-region" = "") := by
  have k1 : canonicalMIMEHeaderKey "x-amz-request-id" = "X-Amz-Request-Id" := by decide
  have k2 : canonicalMIMEHeaderKey "x-amz-id-2" = "X-Amz-Id-2" := by decide
  have k3 : canonicalMIMEHeaderKey "x-amz-bucket-region" = "X-Amz-Bucket-Region" := by decide
  refine ⟨?_, ?_, ?_, ?_, ?_, ?_, ?_⟩
  · unfold httpRespToErrorResponse
    cases herr : (xmlDecoder resp.Body {}).err with
    | none => exact absurd herr hfail
    | some e => simp [herr, statusFallback, StatusNotFound, StatusForbidden, hs]
  · intro v vs h
    simp [Header.Get, k1, h]
  · intro v vs h
    simp [Header.Get, k2, h]
  · intro v vs h
    simp [Header.Get, k3, h]
  · intro h
    simp [Header.Get, k1, h]
  · intro h
    simp [Header.Get, k2, h]
  · intro h
    simp [Header.Get, k3, h]

/-- Witness for C2: a 403 response with an empty body that carries a request id
and a region but no x-amz-id-2 header. -/
theorem fallback_403_access_denied_witness :
    (httpRespToErrorResponse (tableDecoder [])
        (some { Status := "403 Forbidden", StatusCode := 403,
                Header := [("X-Amz-Request-Id", ["F19772218238A85A"]),
                           ("X-Amz-Bucket-Region", ["us-east-1"])],
                Body := "" })
        "bucket" "key").1 =
      { Code := "AccessDenied"
        Message := "Access Denied."
        BucketName := "bucket"
        Key := "key"
        RequestID := "F19772218238A85A"
        HostID := ""
        Region := "us-east-1" } :=
  (fallback_403_access_denied (tableDecoder [])
      { Status := "403 Forbidden", StatusCode := 403,
        Header := [("X-Amz-Request-Id", ["F19772218238A85A"]),
                   ("X-Amz-Bucket-Region", ["us-east-1"])],
        Body := "" }
      "bucket" "key" (by decide) rfl).1.trans (by decide)

/-- C3: XML-first precedence.  Whenever the body of a non-nil response decodes
without error, the returned record is exactly the record the decoder stored,
whatever the status code, the headers and the bucket and object names. -/
theorem xml_first_precedence {ε ρ : Type} (xmlDecoder : XmlDecoder ε ρ)
    (resp : Response ρ) (bucketName objectName : String)
    (hok : (xmlDecoder resp.Body {}).err = none) :
    (httpRespToErrorResponse xmlDecoder (some resp) bucketName objectName).1
      = (xmlDecoder resp.Body {}).v := by
  simp [httpRespToErrorResponse, hok]

/-- Witness for C3: a 404 response whose body decodes to an AccessDenied record
and whose headers carry another request id; the decoded record is returned. -/
theorem xml_first_precedence_witness :
    (tableDecoder [(sampleErrorBody, sampleErrorRecord)] sampleErrorBody {}).err = none ∧
    (httpRespToErrorResponse (tableDecoder [(sampleErrorBody, sampleErrorRecord)])
        (some { Status := "404 Not Found", StatusCode := 404,
                Header := [("X-Amz-Request-Id", ["0000"])], Body := sampleErrorBody })
        "other" "").1 = sampleErrorRecord :=
  ⟨by decide,
   (xml_first_precedence (tableDecoder [(sampleErrorBody, sampleErrorRecord)])
      { Status := "404 Not Found", StatusCode := 404,
        Header := [("X-Amz-Request-Id", ["0000"])], Body := sampleErrorBody }
      "other" "" (by decide)).trans (by decide)⟩

/-! ## Theorems: range selection -/

/-- C4: for an object of size S with 0 < S (an int64), and draws r1 in [0, S)
and r2 in [0, S - r1), the range selection does not panic and yields
start = r1 and end = r2 + start with 0 <= start <= end < S; and when the body
has S bytes the slice Body[start : end+1] is in bounds, is not empty, and has
exactly end - start + 1 bytes. -/
theorem rangeDraw_well_formed (size r1 r2 : Int) (body : List UInt8)
    (hpos : 0 < size) (hmax : size < 2 ^ 63)
    (h1 : 0 ≤ r1 ∧ r1 < size) (h2 : 0 ≤ r2 ∧ r2 < size - r1) :
    ∃ startRange endRange,
      rangeDraw size r1 r2 = some (startRange, endRange) ∧
      startRange = r1 ∧ endRange = r2 + startRange ∧
      0 ≤ startRange ∧ startRange ≤ endRange ∧ endRange < size ∧
      ((body.length : Int) = size →
        ∃ buf, bufRange body startRange endRange = some buf ∧
          (buf.length : Int) = endRange - startRange + 1 ∧ buf ≠ []) := by
  obtain ⟨h1a, h1b⟩ := h1
  obtain ⟨h2a, h2b⟩ := h2
  have hw1 : wrapInt64 (size - r1) = size - r1 := by
    unfold wrapInt64; omega
  have hw2 : wrapInt64 (r2 + r1) = r2 + r1 := by
    unfold wrapInt64; omega
  have hw3 : wrapInt64 (r2 + r1 + 1) = r2 + r1 + 1 := by
    unfold wrapInt64; omega
  refine ⟨r1, r2 + r1, ?_, rfl, rfl, h1a, by omega, by omega, ?_⟩
  · have hn1 : ¬ size ≤ 0 := by omega
    have hn2 : ¬ size - r1 ≤ 0 := by omega
    simp [rangeDraw, Int63n, hw1, hw2, hn1, hn2]
  · intro hlen
    have hb : 0 ≤ r1 ∧ r1 ≤ r2 + r1 + 1 ∧ r2 + r1 + 1 ≤ (body.length : Int) := by omega
    have hlenbuf : ((body.drop r1.toNat).take ((r2 + r1 + 1).toNat - r1.toNat)).length
        = (r2 + 1).toNat := by
      rw [List.length_take, List.length_drop]
      omega
    refine ⟨(body.drop r1.toNat).take ((r2 + r1 + 1).toNat - r1.toNat), ?_, ?_, ?_⟩
    · simp only [bufRange, sliceExpr, hw3]
      rw [if_pos hb]
    · rw [hlenbuf]; omega
    · intro hnil
      rw [hnil] at hlenbuf
      simp at hlenbuf
      omega

/-- Witness for C4: a 100-byte object with draws 10 and 32, i.e. the range
10-42 and a slice of 33 bytes. -/
theorem rangeDraw_well_formed_witness :
    ∃ startRange endRange,
      rangeDraw 100 10 32 = some (startRange, endRange) ∧
      startRange = 10 ∧ endRange = 32 + startRange ∧
      0 ≤ startRange ∧ startRange ≤ endRange ∧ endRange < 100 ∧
      (((List.replicate 100 (7 : UInt8)).length : Int) = 100 →
        ∃ buf, bufRange (List.replicate 100 (7 : UInt8)) startRange endRange = some buf ∧
          (buf.length : Int) = endRange - startRange + 1 ∧ buf ≠ []) :=
  rangeDraw_well_formed 100 10 32 (List.replicate 100 (7 : UInt8))
    (by decide) (by decide) (by decide) (by decide)

/-! ## Theorems: the remove-bucket verifier -/

/-- C5: verifier short-circuit.  The result of removeBucketVerify is the error
of the first failing stage in the order header check, status check, body
check: when the header check fails the result is the header-check error and
the body reader is untouched, for every status code, body and decoder; when the
header check passes and the status code differs from the expected one the
result is the status mismatch that names the wanted and the actual code, again
with the body reader untouched; when both pass the result is that of the body
check. -/
theorem removeBucketVerify_short_circuit {ε ρ : Type}
    (verifyStandardHeaders : Header → Option (GoError ε)) (xmlDecoder : XmlDecoder ε ρ)
    (res : Response ρ) (expectedStatusCode : Int) (errorResponse : ErrorResponse) :
    (∀ e, verifyStandardHeaders res.Header = some e →
      removeBucketVerify verifyStandardHeaders xmlDecoder res expectedStatusCode errorResponse
        = (some e, res.Body)) ∧
    (verifyStandardHeaders res.Header = none → res.StatusCode ≠ expectedStatusCode →
      removeBucketVerify verifyStandardHeaders xmlDecoder res expectedStatusCode errorResponse
        = (some (GoError.errorf ("Unexpected Status: wanted " ++ toString expectedStatusCode ++
            ", got " ++ toString res.StatusCode)), res.Body)) ∧
    (verifyStandardHeaders res.Header = none → res.StatusCode = expectedStatusCode →
      removeBucketVerify verifyStandardHeaders xmlDecoder res expectedStatusCode errorResponse
        = verifyBodyRemoveBucket xmlDecoder res.Body errorResponse) := by
  refine ⟨?_, ?_, ?_⟩
  · intro e he
    simp [removeBucketVerify, verifyHeaderRemoveBucket, he]
  · intro hh hs
    simp [removeBucketVerify, verifyHeaderRemoveBucket, verifyStatusRemoveBucket, hh, hs]
  · intro hh hs
    simp [removeBucketVerify, verifyHeaderRemoveBucket, verifyStatusRemoveBucket, hh, hs]

/-- Witness for C5: a response with status 200 where 404 is wanted and whose
headers pass the check; the mismatch names 404 and 200 and the body is not
read. -/
theorem removeBucketVerify_short_circuit_witness :
    removeBucketVerify requestIdHeaderCheck (tableDecoder [])
        { Status := "200 OK", StatusCode := 200,
          Header := [("X-Amz-Request-Id", ["0000"])], Body := "unread" }
        404 (dneErrResponse "bucket")
      = (some (GoError.errorf "Unexpected Status: wanted 404, got 200"), "unread") :=
  ((removeBucketVerify_short_circuit requestIdHeaderCheck (tableDecoder [])
      { Status := "200 OK", StatusCode := 200,
        Header := [("X-Amz-Request-Id", ["0000"])], Body := "unread" }
      404 (dneErrResponse "bucket")).2.1 (by decide) (by decide)).trans (by decide)

/-- C6, as the code has it: in the body check for an error scenario (a non-empty
expected Message) a body that fails XML decoding ends the check with the
decoder's error, and no status-code fallback takes part; when the body decodes,
the decoded Message is compared with the expected Message. -/
theorem verifyBody_decode_error_aborts {ε ρ : Type} (xmlDecoder : XmlDecoder ε ρ)
    (resBody : ρ) (expectedError : ErrorResponse) (hexp : expectedError.Message ≠ "") :
    (∀ e, (xmlDecoder resBody {}).err = some e →
      (verifyBodyRemoveBucket xmlDecoder resBody expectedError).1 = some e) ∧
    ((xmlDecoder resBody {}).err = none →
      (verifyBodyRemoveBucket xmlDecoder resBody expectedError).1 =
        if (xmlDecoder resBody {}).v.Message ≠ expectedError.Message then
          some (GoError.errorf ("Unexpected Error: " ++ (xmlDecoder resBody {}).v.Message))
        else none) := by
  refine ⟨?_, ?_⟩
  · intro e he
    simp [verifyBodyRemoveBucket, hexp, he]
  · intro he
    by_cases hm : (xmlDecoder resBody {}).v.Message = expectedError.Message
    · simp [verifyBodyRemoveBucket, hexp, he, hm]
    · simp [verifyBodyRemoveBucket, hexp, he, hm]

/-- Witness for C6 as the code has it: an empty body against the expected error
of the missing-bucket test ends in the decoder's error. -/
theorem verifyBody_decode_error_aborts_witness :
    (verifyBodyRemoveBucket (tableDecoder []) "" (dneErrResponse "bucket")).1
      = some (GoError.ext "EOF") :=
  (verifyBody_decode_error_aborts (tableDecoder []) "" (dneErrResponse "bucket")
    (by decide)).1 (GoError.ext "EOF") (by decide)

/-- Counterexample to C6 as stated: a 404 response with an empty body, checked
against an expected record whose Message is the very Message the status-code
fallback yields for that response.  Decoding fails, the fallback Message equals
the expected one, and still the body check returns the decoder's error. -/
theorem verifyBody_no_fallback_counterexample :
    (tableDecoder [] "" {}).err = some (GoError.ext "EOF") ∧
    (httpRespToErrorResponse (tableDecoder [])
        (some { Status := "404 Not Found", StatusCode := 404, Header := [], Body := "" })
        "bucket" "").1.Message = "The specified bucket does not exist." ∧
    (verifyBodyRemoveBucket (tableDecoder []) ""
        { Code := "NoSuchBucket", Message := "The specified bucket does not exist." }).1
      = some (GoError.ext "EOF") ∧
    (removeBucketVerify (fun _ => none) (tableDecoder [])
        { Status := "404 Not Found", StatusCode := 404, Header := [], Body := "" } 404
        { Code := "NoSuchBucket", Message := "The specified bucket does not exist." }).1
      = some (GoError.ext "EOF") := by
  decide

/-- Counterexample to C7 as stated: the expected record of mainRemoveBucketDNE
carries the Message "The specified bucket does not exist" without the final
full stop, the status-code fallback yields "The specified bucket does not
exist." with it, the two are not equal, and a 404 response whose error body
carries the Message with the full stop fails the body check of that test,
which then reports failure. -/
theorem dneErrResponse_message_counterexample :
    (dneErrResponse "bucket").Message = "The specified bucket does not exist" ∧
    (httpRespToErrorResponse (tableDecoder [])
        (some { Status := "404 Not Found", StatusCode := 404, Header := [], Body := "" })
        "bucket" "").1.Message = "The specified bucket does not exist." ∧
    (dneErrResponse "bucket").Message ≠
      (httpRespToErrorResponse (tableDecoder [])
        (some { Status := "404 Not Found", StatusCode := 404, Header := [], Body := "" })
        "bucket" "").1.Message ∧
    (removeBucketVerify (fun _ => none)
        (tableDecoder [(noSuchBucketBody, noSuchBucketRecord)])
        { Status := "404 Not Found", StatusCode := 404, Header := [],
          Body := noSuchBucketBody }
        404 (dneErrResponse "bucket")).1
      = some (GoError.errorf "Unexpected Error: The specified bucket does not exist.") ∧
    mainRemoveBucketDNE sampleHash "s3verify"
        (fun _ _ => Except.ok { Status := "404 Not Found", StatusCode := 404, Header := [],
                                Body := noSuchBucketBody })
        (fun _ => none) (tableDecoder [(noSuchBucketBody, noSuchBucketRecord)]) "bucket"
      = false := by
  decide

/-- C7, as the code has it: the expected record that mainRemoveBucketDNE verifies
against has Code "NoSuchBucket" and the Message "The specified bucket does not
exist", without a final full stop.  The Message that httpRespToErrorResponse
yields for a 404 response with no object key whose body fails decoding is that
text followed by a full stop, so the two differ.  A response whose error body
decodes to exactly the expected Message passes the body check. -/
theorem dneErrResponse_expected_message {ε ρ : Type} (xmlDecoder : XmlDecoder ε ρ)
    (resp : Response ρ) (bucketName : String) :
    (dneErrResponse bucketName).Code = "NoSuchBucket" ∧
    (dneErrResponse bucketName).Message = "The specified bucket does not exist" ∧
    ((xmlDecoder resp.Body {}).err ≠ none → resp.StatusCode = 404 →
      (httpRespToErrorResponse xmlDecoder (some resp) bucketName "").1.Message
          = (dneErrResponse bucketName).Message ++ "." ∧
      (httpRespToErrorResponse xmlDecoder (some resp) bucketName "").1.Message
          ≠ (dneErrResponse bucketName).Message) ∧
    ((xmlDecoder resp.Body {}).err = none →
      (xmlDecoder resp.Body {}).v.Message = "The specified bucket does not exist" →
      verifyBodyRemoveBucket xmlDecoder resp.Body (dneErrResponse bucketName)
        = (none, (xmlDecoder resp.Body {}).body)) := by
  have hmsg : (dneErrResponse bucketName).Message = "The specified bucket does not exist" :=
    rfl
  refine ⟨rfl, rfl, ?_, ?_⟩
  · intro hfail hs
    have hres : (httpRespToErrorResponse xmlDecoder (some resp) bucketName "").1
        = statusFallback resp bucketName "" := by
      unfold httpRespToErrorResponse
      cases herr : (xmlDecoder resp.Body {}).err with
      | none => exact absurd herr hfail
      | some e => simp [herr]
    have hfb : (statusFallback resp bucketName "").Message
        = "The specified bucket does not exist." := by
      simp [statusFallback, StatusNotFound, hs]
    rw [hres, hfb, hmsg]
    exact ⟨by decide, by decide⟩
  · intro hok hm
    have hne : (dneErrResponse bucketName).Message ≠ "" := by
      rw [hmsg]; decide
    simp [verifyBodyRemoveBucket, hne, hok, hm, hmsg]

/-- Witness for C7 as the code has it: a 404 response whose body carries the
Message without the full stop passes the body check of the missing-bucket
test. -/
theorem dneErrResponse_expected_message_witness :
    (tableDecoder [(expectedMessageBody, expectedMessageRecord)] expectedMessageBody {}).err
      = none ∧
    (verifyBodyRemoveBucket (tableDecoder [(expectedMessageBody, expectedMessageRecord)])
        expectedMessageBody (dneErrResponse "bucket")).1 = none :=
  ⟨by decide,
   congrArg Prod.fst
     ((dneErrResponse_expected_message
        (tableDecoder [(expectedMessageBody, expectedMessageRecord)])
        { Status := "404 Not Found", StatusCode := 404, Header := [],
          Body := expectedMessageBody }
        "bucket").2.2.2 (by decide) (by decide))⟩

/-- Counterexample to C8 as stated: a 404 response that passes the header check
and whose body decodes to a record with Code "AccessDenied" and the expected
Message; the decoded Code differs from "NoSuchBucket" and the verification of
the missing-bucket test still reports success, as does the test itself. -/
theorem removeBucketVerify_ignores_code_counterexample :
    (tableDecoder [(otherCodeBody, otherCodeRecord)] otherCodeBody {}).err = none ∧
    (tableDecoder [(otherCodeBody, otherCodeRecord)] otherCodeBody {}).v.Code
      ≠ "NoSuchBucket" ∧
    (removeBucketVerify requestIdHeaderCheck (tableDecoder [(otherCodeBody, otherCodeRecord)])
        { Status := "404 Not Found", StatusCode := 404,
          Header := [("X-Amz-Request-Id", ["0000"])], Body := otherCodeBody }
        StatusNotFound (dneErrResponse "bucket")).1 = none ∧
    mainRemoveBucketDNE sampleHash "s3verify"
        (fun _ _ => Except.ok { Status := "404 Not Found", StatusCode := 404,
                                Header := [("X-Amz-Request-Id", ["0000"])],
                                Body := otherCodeBody })
        requestIdHeaderCheck (tableDecoder [(otherCodeBody, otherCodeRecord)]) "bucket"
      = true := by
  decide

/-- C8, as the code has it: in the missing-bucket scenario removeBucketVerify,
called with expected status 404 and the expected record of the test, reports
success exactly when the header check passes, the status code is 404, the body
decodes without error and the decoded Message equals "The specified bucket does
not exist"; the decoded Code is not compared. -/
theorem removeBucketVerify_dne_success_iff {ε ρ : Type}
    (verifyStandardHeaders : Header → Option (GoError ε)) (xmlDecoder : XmlDecoder ε ρ)
    (res : Response ρ) (bucketName : String) :
    (removeBucketVerify verifyStandardHeaders xmlDecoder res StatusNotFound
        (dneErrResponse bucketName)).1 = none ↔
      (verifyStandardHeaders res.Header = none ∧ res.StatusCode = 404 ∧
        (xmlDecoder res.Body {}).err = none ∧
        (xmlDecoder res.Body {}).v.Message = "The specified bucket does not exist") := by
  have hmsg : (dneErrResponse bucketName).Message ≠ "" := by
    simp [dneErrResponse]
  have hmsg2 : (dneErrResponse bucketName).Message = "The specified bucket does not exist" :=
    rfl
  unfold removeBucketVerify verifyHeaderRemoveBucket verifyStatusRemoveBucket
    verifyBodyRemoveBucket
  cases hh : verifyStandardHeaders res.Header with
  | some e => simp
  | none =>
    by_cases hs : res.StatusCode = StatusNotFound
    · have hs2 : res.StatusCode = 404 := hs
      cases hd : (xmlDecoder res.Body {}).err with
      | some e => simp [hs, hmsg, hd]
      | none =>
        by_cases hm : (xmlDecoder res.Body {}).v.Message = (dneErrResponse bucketName).Message
        · simp [hs, hmsg, hd, hm, hmsg2, StatusNotFound]
        · have hm2 : ¬ (xmlDecoder res.Body {}).v.Message
              = "The specified bucket does not exist" := hm
          simp [hs, hmsg, hd, hm, hm2]
    · have hs2 : ¬ res.StatusCode = 404 := hs
      simp [hs, hs2]

/-- C9: an empty expected Message is the sentinel for "no error expected".  The
body check with an expected record whose Message is empty returns no error and
leaves the body reader untouched, for every body and decoder; hence
removeBucketVerify with the zero ErrorResponse returns no error if and only if
the header check passes and the status code equals the expected one, and it
never reads the body. -/
theorem empty_message_skips_body_check {ε ρ : Type}
    (verifyStandardHeaders : Header → Option (GoError ε)) (xmlDecoder : XmlDecoder ε ρ)
    (res : Response ρ) (expectedStatusCode : Int) :
    (∀ (resBody : ρ) (expectedError : ErrorResponse), expectedError.Message = "" →
      verifyBodyRemoveBucket xmlDecoder resBody expectedError = (none, resBody)) ∧
    ((removeBucketVerify verifyStandardHeaders xmlDecoder res expectedStatusCode {}).1 = none ↔
      (verifyStandardHeaders res.Header = none ∧ res.StatusCode = expectedStatusCode)) ∧
    (removeBucketVerify verifyStandardHeaders xmlDecoder res expectedStatusCode {}).2
      = res.Body := by
  have hbody : ∀ (resBody : ρ) (expectedError : ErrorResponse), expectedError.Message = "" →
      verifyBodyRemoveBucket xmlDecoder resBody expectedError = (none, resBody) := by
    intro resBody expectedError he
    simp [verifyBodyRemoveBucket, he]
  have hzero : verifyBodyRemoveBucket xmlDecoder res.Body {} = (none, res.Body) :=
    hbody res.Body {} rfl
  refine ⟨hbody, ?_, ?_⟩
  · unfold removeBucketVerify verifyHeaderRemoveBucket verifyStatusRemoveBucket
    cases hh : verifyStandardHeaders res.Header with
    | some e => simp
    | none =>
      by_cases hs : res.StatusCode = expectedStatusCode
      · simp [hs, hzero]
      · simp [hs]
  · unfold removeBucketVerify verifyHeaderRemoveBucket verifyStatusRemoveBucket
    cases hh : verifyStandardHeaders res.Header with
    | some e => simp
    | none =>
      by_cases hs : res.StatusCode = expectedStatusCode
      · simp [hs, hzero]
      · simp [hs]

/-- Witness for C9: the body check with the zero ErrorResponse on a body the
decoder cannot decode returns no error and leaves the body unread. -/
theorem empty_message_skips_body_check_witness :
    verifyBodyRemoveBucket (tableDecoder []) "not xml" {} = (none, "not xml") :=
  (empty_message_skips_body_check requestIdHeaderCheck (tableDecoder [])
      { Status := "204 No Content", StatusCode := 204,
        Header := [("X-Amz-Request-Id", ["0000"])], Body := "not xml" }
      204).1 "not xml" {} rfl

/-! ## Theorems: the ranged GET request -/

/-- C10: for every bucket name, object name and pair of integers start and end,
when the digest computation succeeds newGetObjectRangeReq returns no error and
a request carrying that bucket name and object name whose Range header holds
the single value "bytes=" followed by the decimal form of start, "-" and the
decimal form of end; for start 10 and end 42 that value is "bytes=10-42". -/
theorem newGetObjectRangeReq_range_header {ε : Type}
    (computeHash : List UInt8 → HashResult ε) (appUserAgent : String)
    (bucketName objectName : String) (startRange endRange : Int)
    (hok : (computeHash []).err = none) :
    (newGetObjectRangeReq computeHash appUserAgent bucketName objectName
        startRange endRange).2 = none ∧
    (newGetObjectRangeReq computeHash appUserAgent bucketName objectName
        startRange endRange).1.bucketName = bucketName ∧
    (newGetObjectRangeReq computeHash appUserAgent bucketName objectName
        startRange endRange).1.objectName = objectName ∧
    (newGetObjectRangeReq computeHash appUserAgent bucketName objectName
        startRange endRange).1.customHeader.lookup "Range"
      = some ["bytes=" ++ formatInt10 startRange ++ "-" ++ formatInt10 endRange] ∧
    (newGetObjectRangeReq computeHash appUserAgent bucketName objectName
        startRange endRange).1.customHeader.Get "Range"
      = "bytes=" ++ formatInt10 startRange ++ "-" ++ formatInt10 endRange ∧
    (startRange = 10 → endRange = 42 →
      (newGetObjectRangeReq computeHash appUserAgent bucketName objectName
        startRange endRange).1.customHeader.Get "Range" = "bytes=10-42") := by
  have k1 : canonicalMIMEHeaderKey "Range" = "Range" := by decide
  have k2 : canonicalMIMEHeaderKey "User-Agent" = "User-Agent" := by decide
  have k3 : canonicalMIMEHeaderKey "X-Amz-Content-Sha256" = "X-Amz-Content-Sha256" := by
    decide
  have hget : (newGetObjectRangeReq computeHash appUserAgent bucketName objectName
        startRange endRange).1.customHeader.lookup "Range"
      = some ["bytes=" ++ formatInt10 startRange ++ "-" ++ formatInt10 endRange] := by
    simp [newGetObjectRangeReq, hok, Header.Set, Header.lookup, k1, k2, k3, List.lookup]
  have hget2 : (newGetObjectRangeReq computeHash appUserAgent bucketName objectName
        startRange endRange).1.customHeader.Get "Range"
      = "bytes=" ++ formatInt10 startRange ++ "-" ++ formatInt10 endRange := by
    simp [Header.Get, k1, hget]
  refine ⟨?_, ?_, ?_, hget, hget2, ?_⟩
  · simp [newGetObjectRangeReq, hok]
  · simp [newGetObjectRangeReq, hok]
  · simp [newGetObjectRangeReq, hok]
  · intro hs he
    rw [hget2, hs, he]
    decide

/-- Witness for C10: the request for bytes 10 to 42 of "obj1". -/
theorem newGetObjectRangeReq_range_header_witness :
    (sampleHash []).err = none ∧
    (newGetObjectRangeReq sampleHash "s3verify" "bucket" "obj1" 10 42).1.customHeader.Get
      "Range" = "bytes=10-42" :=
  ⟨rfl,
   (newGetObjectRangeReq_range_header sampleHash "s3verify" "bucket" "obj1" 10 42 rfl).2.2.2.2.2
     rfl rfl⟩

/-! ## Theorems: the default branch of the status-code fallback -/

/-- C11: when the body of a non-nil response fails XML decoding and the status
code is none of 404, 403 and 409, the returned record has Code and Message
both equal to the status text of the response, its Status field, and hence
equal to each other. -/
theorem fallback_default_status_text {ε ρ : Type} (xmlDecoder : XmlDecoder ε ρ)
    (resp : Response ρ) (bucketName objectName : String)
    (hfail : (xmlDecoder resp.Body {}).err ≠ none)
    (h404 : resp.StatusCode ≠ 404) (h403 : resp.StatusCode ≠ 403)
    (h409 : resp.StatusCode ≠ 409) :
    (httpRespToErrorResponse xmlDecoder (some resp) bucketName objectName).1.Code
      = resp.Status ∧
    (httpRespToErrorResponse xmlDecoder (some resp) bucketName objectName).1.Message
      = resp.Status ∧
    (httpRespToErrorResponse xmlDecoder (some resp) bucketName objectName).1.Code
      = (httpRespToErrorResponse xmlDecoder (some resp) bucketName objectName).1.Message := by
  have hres : (httpRespToErrorResponse xmlDecoder (some resp) bucketName objectName).1
      = statusFallback resp bucketName objectName := by
    unfold httpRespToErrorResponse
    cases herr : (xmlDecoder resp.Body {}).err with
    | none => exact absurd herr hfail
    | some e => simp [herr]
  have hdef : statusFallback resp bucketName objectName =
      { Code := resp.Status
        Message := resp.Status
        BucketName := bucketName
        RequestID := resp.Header.Get "x-amz-request-id"
        HostID := resp.Header.Get "x-amz-id-2"
        Region := resp.Header.Get "x-amz-bucket-region" } := by
    unfold statusFallback
    rw [if_neg (show ¬ resp.StatusCode = StatusNotFound from h404),
      if_neg (show ¬ resp.StatusCode = StatusForbidden from h403),
      if_neg (show ¬ resp.StatusCode = StatusConflict from h409)]
  rw [hres, hdef]
  exact ⟨rfl, rfl, rfl⟩

/-- Witness for C11: a 500 response with an empty body. -/
theorem fallback_default_status_text_witness :
    (tableDecoder [] "" {}).err ≠ none ∧
    (httpRespToErrorResponse (tableDecoder [])
        (some { Status := "500 Internal Server Error", StatusCode := 500, Header := [],
                Body := "" })
        "bucket" "key").1.Code = "500 Internal Server Error" ∧
    (httpRespToErrorResponse (tableDecoder [])
        (some { Status := "500 Internal Server Error", StatusCode := 500, Header := [],
                Body := "" })
        "bucket" "key").1.Message = "500 Internal Server Error" :=
  ⟨by decide,
   (fallback_default_status_text (tableDecoder [])
      { Status := "500 Internal Server Error", StatusCode := 500, Header := [], Body := "" }
      "bucket" "key" (by decide) (by decide) (by decide) (by decide)).1,
   (fallback_default_status_text (tableDecoder [])
      { Status := "500 Internal Server Error", StatusCode := 500, Header := [], Body := "" }
      "bucket" "key" (by decide) (by decide) (by decide) (by decide)).2.1⟩

end S3Verify
